import Mathlib

/-!
# SYNAPSE leaderboard service — verification development

Shallow embedding of `src/app.py` (Flask + SQLite leaderboard service).

Modelling conventions:
* The SQLite tables become lists of records inside a `DB` structure; the
  `UNIQUE` constraints of the schema become explicit boolean predicates
  (`key_unique` for `UNIQUE(member_id, week_start)` /
  `UNIQUE(member_id, month_year)`).
* The Flask per-client `session` dict becomes an explicit `Session` value
  threaded through the handlers; `'user_id' not in session` becomes
  `sess.user_id = none`.
* `hash_password` (SHA-256 in the source) is treated as an abstract
  function parameter `hash_password : String → String`: every property
  proved here depends only on digest equality, never on the digest's
  internal structure.
* `get_week_start` / `get_month_year` read the wall clock, so the resolved
  period key is passed to each handler as an explicit `String` argument.
* JSON request bodies become request structures; `data.get(k)` on a field
  that may be absent becomes an `Option`, and Python truthiness of the
  fetched value (`if not x`) is modelled by `falsy_str` / `falsy_int`.
* A handler's JSON response becomes `ApiOut α`: `ok payload` for the
  success envelope, `err status error code` for
  `{'success': False, 'error': ..., 'code': ...}, status`.
* The SQL `ORDER BY ... DESC` of the leaderboard queries is modelled by a
  structurally recursive insertion sort on the computed score.
-/

/-- Row of `admin_users` (`created_at` timestamp omitted: wall clock). -/
structure AdminUser where
  id : Int
  username : String
  password_hash : String
  role : String
deriving DecidableEq

/-- Row of `members` (`created_at` omitted: wall clock). -/
structure Member where
  id : Int
  name : String
  avatar : String
deriving DecidableEq

/-- Row of `weekly_leaderboard` or `monthly_leaderboard`.  The `period`
field stands for `week_start` (weekly table) or `month_year` (monthly
table); the two tables have identical shape in the source.  The surrogate
`id` column is omitted (never read by the handlers). -/
structure StatRow where
  member_id : Int
  sessions_attended : Int
  assessments_submitted : Int
  bonus_points : Int
  period : String
deriving DecidableEq

/-- Row of `audit_log` (`id`, `timestamp` omitted; list order is append
order). -/
structure AuditEntry where
  admin_username : String
  action : String
  details : String
deriving DecidableEq

/-- The persistent store: the five SQLite tables plus the `AUTOINCREMENT`
counter for `members.id`. -/
structure DB where
  admin_users : List AdminUser
  members : List Member
  weekly_leaderboard : List StatRow
  monthly_leaderboard : List StatRow
  audit_log : List AuditEntry
  next_member_id : Int
deriving DecidableEq

/-- The Flask session dict: `none` models an absent key. -/
structure Session where
  user_id : Option Int
  username : Option String
  role : Option String
deriving DecidableEq

/-- A handler's outcome: the success envelope carrying a payload, or the
error envelope `{'success': False, 'error': e, 'code': c}` with an HTTP
status. -/
inductive ApiOut (α : Type) where
  | ok : α → ApiOut α
  | err : Nat → String → Option String → ApiOut α
deriving DecidableEq

/-- Python truthiness test `not x` for `x = data.get(field)` holding an
optional string: true on `None` and on the empty string. -/
def falsy_str : Option String → Bool
  | none => true
  | some s => s == ""

/-- Python truthiness test `not x` for `x = data.get(field)` holding an
optional integer: true on `None` and on `0`. -/
def falsy_int : Option Int → Bool
  | none => true
  | some v => v == 0

/-- `calculate_points(sessions, assessments, bonus)`:
`(sessions * 10) + (assessments * 20) + bonus`. -/
def calculate_points (sessions assessments bonus : Int) : Int :=
  (sessions * 10) + (assessments * 20) + bonus

/-- `log_action(action, details)`: appends one audit row whose actor is
`session.get('username', 'system')`. -/
def log_action (sess : Session) (action details : String) (db : DB) : DB :=
  { db with audit_log :=
      db.audit_log ++ [⟨sess.username.getD "system", action, details⟩] }

/-- The `require_auth` decorator: when `'user_id' not in session` the
wrapped handler is not invoked and the caller gets the 401
`AUTH_REQUIRED` envelope with the store untouched. -/
def require_auth {α : Type} (sess : Session) (f : DB → ApiOut α × DB)
    (db : DB) : ApiOut α × DB :=
  if sess.user_id.isNone then
    (.err 401 "Authentication required" (some "AUTH_REQUIRED"), db)
  else f db

/-- Request body of `POST /api/auth/login`. -/
structure LoginReq where
  username : Option String
  password : Option String
deriving DecidableEq

/-- `login()`: 400 when either credential is falsy; otherwise one SQL
lookup `WHERE username = ? AND password_hash = ?`.  On a hit the session
receives `{user_id, username, role}` and a LOGIN audit row is written; on
a miss the single undifferentiated 401 `Invalid credentials` envelope is
returned with session and store unchanged. -/
def login (hash_password : String → String) (req : LoginReq)
    (sess : Session) (db : DB) : ApiOut (String × String) × Session × DB :=
  if falsy_str req.username || falsy_str req.password then
    (.err 400 "Username and password required" none, sess, db)
  else
    let u := req.username.getD ""
    let p := req.password.getD ""
    match db.admin_users.find?
        (fun a => a.username == u && a.password_hash == hash_password p) with
    | some user =>
        let sess1 : Session := ⟨some user.id, some user.username, some user.role⟩
        let db1 := log_action sess1 "LOGIN" ("User " ++ u ++ " logged in") db
        (.ok (user.username, user.role), sess1, db1)
    | none => (.err 401 "Invalid credentials" none, sess, db)

/-- `logout()`: guarded by `require_auth`; clears the session before
logging, so the LOGOUT audit actor is the `'system'` sentinel. -/
def logout (sess : Session) (db : DB) : ApiOut String × Session × DB :=
  if sess.user_id.isNone then
    (.err 401 "Authentication required" (some "AUTH_REQUIRED"), sess, db)
  else
    let uname := match sess.username with | some u => u | none => "None"
    let sess1 : Session := ⟨none, none, none⟩
    let db1 := log_action sess1 "LOGOUT" ("User " ++ uname ++ " logged out") db
    (.ok "Logged out", sess1, db1)

/-- One row of the leaderboard response: the member columns, the three
`COALESCE`d stat columns, and the Python-computed `totalPoints`. -/
structure LeaderboardEntry where
  id : Int
  name : String
  avatar : String
  sessionsAttended : Int
  assessmentsSubmitted : Int
  bonusPoints : Int
  totalPoints : Int
deriving DecidableEq

/-- The `LEFT JOIN ... ON m.id = w.member_id AND w.period = ?` lookup:
the stat row of a member for the given period, if any. -/
def find_stat (rows : List StatRow) (mid : Int) (period : String) :
    Option StatRow :=
  rows.find? (fun r => r.member_id == mid && r.period == period)

/-- One joined row: missing stats `COALESCE` to zero, and `totalPoints`
is `calculate_points` over the coalesced columns. -/
def leaderboard_entry (rows : List StatRow) (period : String)
    (m : Member) : LeaderboardEntry :=
  match find_stat rows m.id period with
  | some r =>
      ⟨m.id, m.name, m.avatar, r.sessions_attended, r.assessments_submitted,
        r.bonus_points,
        calculate_points r.sessions_attended r.assessments_submitted
          r.bonus_points⟩
  | none => ⟨m.id, m.name, m.avatar, 0, 0, 0, calculate_points 0 0 0⟩

/-- Descending insertion step of the `ORDER BY (score) DESC` model. -/
def insert_desc (e : LeaderboardEntry) :
    List LeaderboardEntry → List LeaderboardEntry
  | [] => [e]
  | x :: xs =>
      if x.totalPoints ≤ e.totalPoints then e :: x :: xs
      else x :: insert_desc e xs

/-- `ORDER BY (score) DESC`, modelled as insertion sort on `totalPoints`. -/
def sort_by_points_desc : List LeaderboardEntry → List LeaderboardEntry
  | [] => []
  | x :: xs => insert_desc x (sort_by_points_desc xs)

/-- `GET /api/leaderboard/weekly`: every member, left-joined against the
weekly stats of the given `week_start`, sorted by descending score. -/
def get_weekly_leaderboard (db : DB) (week_start : String) :
    List LeaderboardEntry :=
  sort_by_points_desc
    (db.members.map (leaderboard_entry db.weekly_leaderboard week_start))

/-- `GET /api/leaderboard/monthly`: identical, keyed by `month_year`. -/
def get_monthly_leaderboard (db : DB) (month_year : String) :
    List LeaderboardEntry :=
  sort_by_points_desc
    (db.members.map (leaderboard_entry db.monthly_leaderboard month_year))

/-- Python's `name.replace(' ', '+')`: for a one-character pattern and
replacement this is exactly a character map. -/
def plus_for_space (name : String) : String :=
  String.mk (name.data.map (fun c => if c = ' ' then '+' else c))

/-- The default avatar URL built by `add_member` when the request omits
`avatar`: the name with spaces replaced by `+` (and nothing else encoded)
plus the fixed query parameters. -/
def default_avatar (name : String) : String :=
  "https://ui-avatars.com/api/?name=" ++ plus_for_space name ++
    "&background=ff642c&color=fff&size=200"

/-- Request body of `POST /api/admin/members`. -/
structure AddMemberReq where
  name : Option String
  avatar : Option String
deriving DecidableEq

/-- `add_member()`: 400 when `name` is falsy; the `INSERT` hitting the
`UNIQUE(name)` constraint (an existing member of the same name) is the
`sqlite3.IntegrityError` path, a 400 with nothing written; otherwise the
row is inserted with the next `AUTOINCREMENT` id, an ADD_MEMBER audit row
is written, and the new member is returned. -/
def add_member (sess : Session) (req : AddMemberReq) (db : DB) :
    ApiOut Member × DB :=
  require_auth sess (fun db =>
    if falsy_str req.name then (.err 400 "Name is required" none, db)
    else
      let name := req.name.getD ""
      let avatar := req.avatar.getD (default_avatar name)
      if db.members.any (fun m => m.name == name) then
        (.err 400 "Member already exists" none, db)
      else
        let m : Member := ⟨db.next_member_id, name, avatar⟩
        let db1 := { db with members := db.members ++ [m],
                             next_member_id := db.next_member_id + 1 }
        let db2 := log_action sess "ADD_MEMBER"
          ("Added member: " ++ name ++ " (ID: " ++ toString m.id ++ ")") db1
        (.ok m, db2)) db

/-- `delete_member(member_id)`: 404 when the id resolves to no member;
otherwise deletes the member's weekly rows, monthly rows and member row
in one commit and writes a DELETE_MEMBER audit row. -/
def delete_member (sess : Session) (member_id : Int) (db : DB) :
    ApiOut String × DB :=
  require_auth sess (fun db =>
    match db.members.find? (fun m => m.id == member_id) with
    | none => (.err 404 "Member not found" none, db)
    | some m =>
        let db1 := { db with
          weekly_leaderboard :=
            db.weekly_leaderboard.filter (fun r => !(r.member_id == member_id)),
          monthly_leaderboard :=
            db.monthly_leaderboard.filter (fun r => !(r.member_id == member_id)),
          members := db.members.filter (fun x => !(x.id == member_id)) }
        let db2 := log_action sess "DELETE_MEMBER"
          ("Deleted member: " ++ m.name ++ " (ID: " ++ toString member_id ++ ")")
          db1
        (.ok ("Member " ++ m.name ++ " deleted"), db2)) db

/-- The per-row key test of the `UNIQUE(member_id, period)` constraint. -/
def key_match (mid : Int) (period : String) (r : StatRow) : Bool :=
  r.member_id == mid && r.period == period

/-- The `UNIQUE(member_id, week_start)` / `UNIQUE(member_id, month_year)`
schema constraint: no two rows share a (member, period) key. -/
def key_unique : List StatRow → Bool
  | [] => true
  | r :: rs =>
      rs.all (fun r2 => !key_match r.member_id r.period r2) && key_unique rs

/-- The `INSERT ... ON CONFLICT(member_id, period) DO UPDATE SET ...`
statement: a conflicting row has its three stat columns fully replaced,
otherwise a fresh row is appended. -/
def upsert_stat (rows : List StatRow) (mid : Int) (s a b : Int)
    (period : String) : List StatRow :=
  if rows.any (key_match mid period) then
    rows.map (fun r =>
      if key_match mid period r then
        { r with sessions_attended := s, assessments_submitted := a,
                 bonus_points := b }
      else r)
  else rows ++ [⟨mid, s, a, b, period⟩]

/-- Request body of the stat-update endpoints; the three stat fields are
shown after `data.get(field, 0)` has applied the default `0`. -/
structure UpdateStatReq where
  member_id : Option Int
  sessions_attended : Int
  assessments_submitted : Int
  bonus_points : Int
deriving DecidableEq

/-- `update_weekly_leaderboard()`: 400 when `member_id` is falsy (absent
or `0`), 404 when it resolves to no member, otherwise upserts the
(member, week_start) row and writes an UPDATE_WEEKLY audit row. -/
def update_weekly_leaderboard (sess : Session) (week_start : String)
    (req : UpdateStatReq) (db : DB) : ApiOut String × DB :=
  require_auth sess (fun db =>
    if falsy_int req.member_id then
      (.err 400 "member_id is required" none, db)
    else
      let mid := req.member_id.getD 0
      match db.members.find? (fun m => m.id == mid) with
      | none => (.err 404 "Member not found" none, db)
      | some m =>
          let rows := upsert_stat db.weekly_leaderboard mid
            req.sessions_attended req.assessments_submitted req.bonus_points
            week_start
          let db1 := { db with weekly_leaderboard := rows }
          let db2 := log_action sess "UPDATE_WEEKLY"
            ("Updated weekly stats for " ++ m.name) db1
          (.ok "Weekly leaderboard updated", db2)) db

/-- `update_monthly_leaderboard()`: identical, keyed by `month_year`. -/
def update_monthly_leaderboard (sess : Session) (month_year : String)
    (req : UpdateStatReq) (db : DB) : ApiOut String × DB :=
  require_auth sess (fun db =>
    if falsy_int req.member_id then
      (.err 400 "member_id is required" none, db)
    else
      let mid := req.member_id.getD 0
      match db.members.find? (fun m => m.id == mid) with
      | none => (.err 404 "Member not found" none, db)
      | some m =>
          let rows := upsert_stat db.monthly_leaderboard mid
            req.sessions_attended req.assessments_submitted req.bonus_points
            month_year
          let db1 := { db with monthly_leaderboard := rows }
          let db2 := log_action sess "UPDATE_MONTHLY"
            ("Updated monthly stats for " ++ m.name) db1
          (.ok "Monthly leaderboard updated", db2)) db

/-- `delete_weekly_entry(member_id)`: 404 when no row exists for
(member_id, week_start); otherwise deletes it and writes a DELETE_WEEKLY
audit row. -/
def delete_weekly_entry (sess : Session) (week_start : String)
    (member_id : Int) (db : DB) : ApiOut String × DB :=
  require_auth sess (fun db =>
    if db.weekly_leaderboard.any (key_match member_id week_start) then
      let rows := db.weekly_leaderboard.filter
        (fun r => !key_match member_id week_start r)
      let db1 := { db with weekly_leaderboard := rows }
      let db2 := log_action sess "DELETE_WEEKLY"
        ("Deleted weekly stats for member ID " ++ toString member_id) db1
      (.ok "Weekly leaderboard entry deleted", db2)
    else (.err 404 "Entry not found" none, db)) db

/-- `delete_monthly_entry(member_id)`: symmetric, keyed by `month_year`. -/
def delete_monthly_entry (sess : Session) (month_year : String)
    (member_id : Int) (db : DB) : ApiOut String × DB :=
  require_auth sess (fun db =>
    if db.monthly_leaderboard.any (key_match member_id month_year) then
      let rows := db.monthly_leaderboard.filter
        (fun r => !key_match member_id month_year r)
      let db1 := { db with monthly_leaderboard := rows }
      let db2 := log_action sess "DELETE_MONTHLY"
        ("Deleted monthly stats for member ID " ++ toString member_id) db1
      (.ok "Monthly leaderboard entry deleted", db2)
    else (.err 404 "Entry not found" none, db)) db

/-- `init_db()`: empty tables plus the bootstrap `admin` account with the
digest of `synapse2024`. -/
def init_db (hash_password : String → String) : DB :=
  { admin_users := [⟨1, "admin", hash_password "synapse2024", "admin"⟩],
    members := [], weekly_leaderboard := [], monthly_leaderboard := [],
    audit_log := [], next_member_id := 1 }

/-- One API call mutating the store: any handler invoked with any session
and request body. -/
inductive Step (hash_password : String → String) : DB → DB → Prop where
  | login_step (req : LoginReq) (sess : Session) (db : DB) :
      Step hash_password db (login hash_password req sess db).2.2
  | logout_step (sess : Session) (db : DB) :
      Step hash_password db (logout sess db).2.2
  | add_member_step (sess : Session) (req : AddMemberReq) (db : DB) :
      Step hash_password db (add_member sess req db).2
  | delete_member_step (sess : Session) (mid : Int) (db : DB) :
      Step hash_password db (delete_member sess mid db).2
  | update_weekly_step (sess : Session) (ws : String) (req : UpdateStatReq)
      (db : DB) :
      Step hash_password db (update_weekly_leaderboard sess ws req db).2
  | update_monthly_step (sess : Session) (my : String) (req : UpdateStatReq)
      (db : DB) :
      Step hash_password db (update_monthly_leaderboard sess my req db).2
  | delete_weekly_step (sess : Session) (ws : String) (mid : Int) (db : DB) :
      Step hash_password db (delete_weekly_entry sess ws mid db).2
  | delete_monthly_step (sess : Session) (my : String) (mid : Int) (db : DB) :
      Step hash_password db (delete_monthly_entry sess my mid db).2

/-- Store states reachable from `init_db` through API calls. -/
inductive Reachable (hash_password : String → String) : DB → Prop where
  | init : Reachable hash_password (init_db hash_password)
  | step {db db1 : DB} : Reachable hash_password db →
      Step hash_password db db1 → Reachable hash_password db1

/-- The store with its weekly stat table replaced. -/
def with_weekly (db : DB) (rows : List StatRow) : DB :=
  { db with weekly_leaderboard := rows }

/-- The store with its monthly stat table replaced. -/
def with_monthly (db : DB) (rows : List StatRow) : DB :=
  { db with monthly_leaderboard := rows }

/-- Hex digit of a value below 16, uppercase. -/
def hex_digit (n : Nat) : Char :=
  if n < 10 then Char.ofNat (48 + n) else Char.ofNat (55 + n)

/-- Modelled from the spec: the encoding named by "the name URL-encoded,
spaces replaced by `+`" — form-style URL encoding, where a space becomes
`+`, unreserved characters (letters, digits, `-`, `.`, `_`, `~`) stay,
and any other character is percent-encoded as `%XX` in uppercase hex. -/
def url_encode_char (c : Char) : String :=
  if c = ' ' then "+"
  else if c.isAlphanum || c = '-' || c = '.' || c = '_' || c = '~' then
    String.singleton c
  else
    "%" ++ String.singleton (hex_digit (c.toNat / 16)) ++
      String.singleton (hex_digit (c.toNat % 16))

/-- Modelled from the spec: URL-encoding of a whole name. -/
def url_encode (s : String) : String :=
  String.join (s.data.map url_encode_char)

/-- Modelled from the spec: the default avatar URL as the spec sentence
describes it, with the name genuinely URL-encoded. -/
def url_encoded_default_avatar (name : String) : String :=
  "https://ui-avatars.com/api/?name=" ++ url_encode name ++
    "&background=ff642c&color=fff&size=200"

/-- An authenticated admin session, as `login` would create it. -/
def sess1 : Session := ⟨some 1, some "admin", some "admin"⟩

/-- A small concrete store: two members, Alice with one weekly stat row,
Bob with none. -/
def db1 : DB :=
  ⟨[⟨1, "admin", "h", "admin"⟩], [⟨1, "Alice", "av1"⟩, ⟨2, "Bob", "av2"⟩],
   [⟨1, 3, 1, 5, "2025-01-06"⟩], [], [], 3⟩

/-- A concrete stand-in for the abstract password digest, used to build a
reachable store. -/
def digest0 : String → String := fun s => s ++ "#"

/-- The result of logging in as the bootstrap admin on the fresh store. -/
def login0 : ApiOut (String × String) × Session × DB :=
  login digest0 ⟨some "admin", some "synapse2024"⟩ ⟨none, none, none⟩
    (init_db digest0)

/-- The admin session issued by `login0`. -/
def sess_admin : Session := login0.2.1

/-- A store reached from `init_db` by logging in, adding member "A" and
upserting a weekly stat row with negative `bonus_points`: the handlers
never validate non-negativity. -/
def bad_db : DB :=
  (update_weekly_leaderboard sess_admin "2025-01-06" ⟨some 1, 0, 0, -5⟩
    (add_member sess_admin ⟨some "A", none⟩ login0.2.2).2).2

-- ======== helper lemmas ========

theorem insert_desc_perm (e : LeaderboardEntry) (l : List LeaderboardEntry) :
    (insert_desc e l).Perm (e :: l) := by
  induction l with
  | nil => simp [insert_desc]
  | cons x xs ih =>
      simp only [insert_desc]
      split
      · exact List.Perm.refl _
      · exact (ih.cons x).trans (List.Perm.swap e x xs)

theorem sort_by_points_desc_perm (l : List LeaderboardEntry) :
    (sort_by_points_desc l).Perm l := by
  induction l with
  | nil => simp [sort_by_points_desc]
  | cons x xs ih =>
      exact (insert_desc_perm x _).trans (ih.cons x)

theorem insert_desc_pairwise (e : LeaderboardEntry)
    (l : List LeaderboardEntry)
    (h : l.Pairwise (fun a b => b.totalPoints ≤ a.totalPoints)) :
    (insert_desc e l).Pairwise (fun a b => b.totalPoints ≤ a.totalPoints) := by
  induction l with
  | nil => simp [insert_desc]
  | cons x xs ih =>
      rw [List.pairwise_cons] at h
      obtain ⟨hx, hxs⟩ := h
      simp only [insert_desc]
      split
      · rename_i hc
        refine List.Pairwise.cons ?_ (List.Pairwise.cons hx hxs)
        intro y hy
        rcases List.mem_cons.mp hy with rfl | hy2
        · exact hc
        · exact le_trans (hx y hy2) hc
      · rename_i hc
        refine List.Pairwise.cons ?_ (ih hxs)
        intro y hy
        rcases List.mem_cons.mp ((insert_desc_perm e xs).mem_iff.mp hy) with rfl | hy2
        · exact le_of_lt (lt_of_not_le hc)
        · exact hx y hy2

theorem sort_by_points_desc_pairwise (l : List LeaderboardEntry) :
    (sort_by_points_desc l).Pairwise
      (fun a b => b.totalPoints ≤ a.totalPoints) := by
  induction l with
  | nil => simp [sort_by_points_desc]
  | cons x xs ih => exact insert_desc_pairwise x _ ih

theorem leaderboard_entry_id (rows : List StatRow) (p : String)
    (m : Member) : (leaderboard_entry rows p m).id = m.id := by
  unfold leaderboard_entry
  cases find_stat rows m.id p <;> rfl

theorem key_match_iff (mid : Int) (p : String) (r : StatRow) :
    key_match mid p r = true ↔ r.member_id = mid ∧ r.period = p := by
  simp [key_match]

theorem map_replace_filter (mid : Int) (s a b : Int) (p : String)
    (rows : List StatRow) (hku : key_unique rows = true)
    (hany : rows.any (key_match mid p) = true) :
    (rows.map (fun r =>
        if key_match mid p r then
          { r with sessions_attended := s, assessments_submitted := a,
                   bonus_points := b }
        else r)).filter (key_match mid p) = [⟨mid, s, a, b, p⟩] := by
  induction rows with
  | nil => simp at hany
  | cons r rs ih =>
      simp only [key_unique, Bool.and_eq_true, List.all_eq_true] at hku
      obtain ⟨hall, hku2⟩ := hku
      by_cases hm : key_match mid p r = true
      · obtain ⟨hid, hp⟩ := (key_match_iff mid p r).mp hm
        have hhead : (if key_match mid p r then
            ({ r with sessions_attended := s, assessments_submitted := a,
                      bonus_points := b } : StatRow)
          else r) = ⟨mid, s, a, b, p⟩ := by
          rw [if_pos hm]; cases r; simp_all
        have hnone : ∀ r2 ∈ rs, key_match mid p r2 = false := by
          intro r2 h2
          have := hall r2 h2
          rw [hid, hp] at this
          simpa using this
        have hmap : rs.map (fun r2 =>
            if key_match mid p r2 then
              { r2 with sessions_attended := s, assessments_submitted := a,
                        bonus_points := b }
            else r2) = rs := by
          rw [List.map_congr_left (fun r2 h2 => if_neg (by simp [hnone r2 h2]))]
          exact List.map_id rs
        have hfilter : rs.filter (key_match mid p) = [] :=
          List.filter_eq_nil_iff.mpr (fun r2 h2 => by simp [hnone r2 h2])
        simp only [List.map_cons, hhead, hmap, List.filter_cons]
        simp [key_match, hfilter]
      · have hany2 : rs.any (key_match mid p) = true := by
          rcases List.any_eq_true.mp hany with ⟨x, hx, hpx⟩
          rcases List.mem_cons.mp hx with rfl | hx2
          · exact absurd hpx hm
          · exact List.any_eq_true.mpr ⟨x, hx2, hpx⟩
        simp only [List.map_cons, if_neg hm, List.filter_cons]
        exact ih hku2 hany2

theorem upsert_stat_filter (rows : List StatRow) (mid : Int) (s a b : Int)
    (p : String) (hku : key_unique rows = true) :
    (upsert_stat rows mid s a b p).filter (key_match mid p) =
      [⟨mid, s, a, b, p⟩] := by
  unfold upsert_stat
  by_cases hany : rows.any (key_match mid p) = true
  · rw [if_pos hany]
    exact map_replace_filter mid s a b p rows hku hany
  · rw [if_neg hany]
    have hfilter : rows.filter (key_match mid p) = [] := by
      refine List.filter_eq_nil_iff.mpr (fun r2 h2 => ?_)
      intro hx
      exact hany (List.any_eq_true.mpr ⟨r2, h2, hx⟩)
    rw [List.filter_append, hfilter]
    simp [key_match]

theorem key_unique_append_singleton (rows : List StatRow) (x : StatRow)
    (h1 : key_unique rows = true)
    (h2 : ∀ r ∈ rows, (x.member_id == r.member_id && x.period == r.period)
      = false) :
    key_unique (rows ++ [x]) = true := by
  induction rows with
  | nil => simp [key_unique]
  | cons r rs ih =>
      simp only [key_unique, Bool.and_eq_true, List.all_eq_true] at h1
      obtain ⟨hall, hku2⟩ := h1
      simp only [List.cons_append, key_unique, Bool.and_eq_true,
        List.all_eq_true]
      refine ⟨fun r2 h2' => ?_, ih hku2 (fun r3 h3 => h2 r3 (by simp [h3]))⟩
      rcases List.mem_append.mp h2' with h2a | h2b
      · exact hall r2 h2a
      · rcases List.mem_singleton.mp h2b with rfl
        have hx := h2 r (by simp)
        simp [key_match, hx]

theorem key_unique_map_preserve (rows : List StatRow) (f : StatRow → StatRow)
    (hf : ∀ r, (f r).member_id = r.member_id ∧ (f r).period = r.period) :
    key_unique (rows.map f) = key_unique rows := by
  have hkm : ∀ (a : Int) (b : String) (r2 : StatRow),
      key_match a b (f r2) = key_match a b r2 := by
    intro a b r2
    unfold key_match
    rw [(hf r2).1, (hf r2).2]
  induction rows with
  | nil => rfl
  | cons r rs ih =>
      simp only [List.map_cons, key_unique, List.all_map]
      rw [(hf r).1, (hf r).2, ih]
      congr 1
      congr 1
      funext r2
      simp [Function.comp, hkm]

theorem key_unique_upsert (rows : List StatRow) (mid : Int) (s a b : Int)
    (p : String) (hku : key_unique rows = true) :
    key_unique (upsert_stat rows mid s a b p) = true := by
  unfold upsert_stat
  by_cases hany : rows.any (key_match mid p) = true
  · rw [if_pos hany]
    rw [key_unique_map_preserve rows _ (fun r => by split <;> simp)]
    exact hku
  · rw [if_neg hany]
    refine key_unique_append_singleton rows _ hku (fun r hr => ?_)
    have hnm : ¬(r.member_id = mid ∧ r.period = p) := by
      intro hx
      exact hany (List.any_eq_true.mpr ⟨r, hr, (key_match_iff mid p r).mpr hx⟩)
    show (mid == r.member_id && p == r.period) = false
    simp only [Bool.and_eq_false_iff, beq_eq_false_iff_ne]
    by_cases h1 : r.member_id = mid
    · exact Or.inr (fun hp => hnm ⟨h1, hp.symm⟩)
    · exact Or.inl (fun hm2 => h1 hm2.symm)

theorem leaderboard_entry_totalPoints (rows : List StatRow) (p : String)
    (m : Member) :
    (leaderboard_entry rows p m).totalPoints =
      calculate_points (leaderboard_entry rows p m).sessionsAttended
        (leaderboard_entry rows p m).assessmentsSubmitted
        (leaderboard_entry rows p m).bonusPoints := by
  unfold leaderboard_entry
  cases find_stat rows m.id p <;> rfl

theorem leaderboard_entry_of_none (rows : List StatRow) (p : String)
    (m : Member) (h : find_stat rows m.id p = none) :
    leaderboard_entry rows p m = ⟨m.id, m.name, m.avatar, 0, 0, 0, 0⟩ := by
  unfold leaderboard_entry
  rw [h]
  simp [calculate_points]

theorem lb_mem_entry (members : List Member) (rows : List StatRow)
    (p : String) (m : Member) (hm : m ∈ members) :
    leaderboard_entry rows p m ∈
      sort_by_points_desc (members.map (leaderboard_entry rows p)) :=
  (sort_by_points_desc_perm _).mem_iff.mpr (List.mem_map_of_mem _ hm)

theorem lb_mem_inv (members : List Member) (rows : List StatRow)
    (p : String) (e : LeaderboardEntry)
    (he : e ∈ sort_by_points_desc (members.map (leaderboard_entry rows p))) :
    ∃ m ∈ members, e = leaderboard_entry rows p m := by
  have h2 := (sort_by_points_desc_perm _).mem_iff.mp he
  rcases List.mem_map.mp h2 with ⟨m, hm, hme⟩
  exact ⟨m, hm, hme.symm⟩

theorem lb_countP_eq_one (members : List Member) (rows : List StatRow)
    (p : String) (m : Member)
    (hids : (members.map (fun x => x.id)).Nodup) (hm : m ∈ members) :
    (sort_by_points_desc (members.map (leaderboard_entry rows p))).countP
      (fun e => e.id == m.id) = 1 := by
  rw [(sort_by_points_desc_perm _).countP_eq, List.countP_map]
  have hfun : ((fun e : LeaderboardEntry => e.id == m.id) ∘
      leaderboard_entry rows p) = (fun x : Member => x.id == m.id) := by
    funext x
    simp [Function.comp, leaderboard_entry_id]
  rw [hfun]
  have h2 : (fun x : Member => x.id == m.id) =
      ((fun i : Int => i == m.id) ∘ (fun x : Member => x.id)) := rfl
  rw [h2, ← List.countP_map]
  exact List.count_eq_one_of_mem hids (List.mem_map_of_mem _ hm)

theorem lb_nonneg (members : List Member) (rows : List StatRow) (p : String)
    (h : ∀ r ∈ rows, 0 ≤ r.sessions_attended ∧ 0 ≤ r.assessments_submitted ∧
      0 ≤ r.bonus_points) :
    ∀ e ∈ sort_by_points_desc (members.map (leaderboard_entry rows p)),
      0 ≤ e.totalPoints := by
  intro e he
  rcases lb_mem_inv members rows p e he with ⟨m, _, rfl⟩
  unfold leaderboard_entry
  cases hf : find_stat rows m.id p with
  | none => simp [calculate_points]
  | some r =>
      have hr := h r (List.mem_of_find?_eq_some hf)
      simp only [calculate_points]
      obtain ⟨h1, h2, h3⟩ := hr
      omega

theorem update_weekly_success (sess : Session) (ws : String)
    (req : UpdateStatReq) (db : DB) (mid : Int) (m : Member)
    (hauth : sess.user_id.isSome = true) (hmid : req.member_id = some mid)
    (h0 : mid ≠ 0)
    (hfind : db.members.find? (fun x => x.id == mid) = some m) :
    update_weekly_leaderboard sess ws req db =
      (.ok "Weekly leaderboard updated",
        log_action sess "UPDATE_WEEKLY" ("Updated weekly stats for " ++ m.name)
          (with_weekly db (upsert_stat db.weekly_leaderboard mid
            req.sessions_attended req.assessments_submitted req.bonus_points
            ws))) := by
  have hN : sess.user_id.isNone = false := by
    cases h : sess.user_id <;> simp_all
  have hF : falsy_int (some mid) = false := by
    show (mid == 0) = false
    exact beq_eq_false_iff_ne.mpr h0
  simp [update_weekly_leaderboard, require_auth, with_weekly, hN, hF, hmid,
    hfind]

theorem update_weekly_400 (sess : Session) (ws : String)
    (req : UpdateStatReq) (db : DB)
    (hauth : sess.user_id.isSome = true)
    (hf : falsy_int req.member_id = true) :
    update_weekly_leaderboard sess ws req db =
      (.err 400 "member_id is required" none, db) := by
  have hN : sess.user_id.isNone = false := by
    cases h : sess.user_id <;> simp_all
  simp [update_weekly_leaderboard, require_auth, hN, hf]

theorem update_weekly_404 (sess : Session) (ws : String)
    (req : UpdateStatReq) (db : DB) (mid : Int)
    (hauth : sess.user_id.isSome = true) (hmid : req.member_id = some mid)
    (h0 : mid ≠ 0)
    (hfind : db.members.find? (fun x => x.id == mid) = none) :
    update_weekly_leaderboard sess ws req db =
      (.err 404 "Member not found" none, db) := by
  have hN : sess.user_id.isNone = false := by
    cases h : sess.user_id <;> simp_all
  have hF : falsy_int (some mid) = false := by
    show (mid == 0) = false
    exact beq_eq_false_iff_ne.mpr h0
  simp [update_weekly_leaderboard, require_auth, hN, hF, hmid, hfind]

theorem update_monthly_success (sess : Session) (my : String)
    (req : UpdateStatReq) (db : DB) (mid : Int) (m : Member)
    (hauth : sess.user_id.isSome = true) (hmid : req.member_id = some mid)
    (h0 : mid ≠ 0)
    (hfind : db.members.find? (fun x => x.id == mid) = some m) :
    update_monthly_leaderboard sess my req db =
      (.ok "Monthly leaderboard updated",
        log_action sess "UPDATE_MONTHLY" ("Updated monthly stats for " ++ m.name)
          (with_monthly db (upsert_stat db.monthly_leaderboard mid
            req.sessions_attended req.assessments_submitted req.bonus_points
            my))) := by
  have hN : sess.user_id.isNone = false := by
    cases h : sess.user_id <;> simp_all
  have hF : falsy_int (some mid) = false := by
    show (mid == 0) = false
    exact beq_eq_false_iff_ne.mpr h0
  simp [update_monthly_leaderboard, require_auth, with_monthly, hN, hF, hmid,
    hfind]

theorem update_monthly_400 (sess : Session) (my : String)
    (req : UpdateStatReq) (db : DB)
    (hauth : sess.user_id.isSome = true)
    (hf : falsy_int req.member_id = true) :
    update_monthly_leaderboard sess my req db =
      (.err 400 "member_id is required" none, db) := by
  have hN : sess.user_id.isNone = false := by
    cases h : sess.user_id <;> simp_all
  simp [update_monthly_leaderboard, require_auth, hN, hf]

theorem update_monthly_404 (sess : Session) (my : String)
    (req : UpdateStatReq) (db : DB) (mid : Int)
    (hauth : sess.user_id.isSome = true) (hmid : req.member_id = some mid)
    (h0 : mid ≠ 0)
    (hfind : db.members.find? (fun x => x.id == mid) = none) :
    update_monthly_leaderboard sess my req db =
      (.err 404 "Member not found" none, db) := by
  have hN : sess.user_id.isNone = false := by
    cases h : sess.user_id <;> simp_all
  have hF : falsy_int (some mid) = false := by
    show (mid == 0) = false
    exact beq_eq_false_iff_ne.mpr h0
  simp [update_monthly_leaderboard, require_auth, hN, hF, hmid, hfind]

theorem add_member_success (sess : Session) (req : AddMemberReq) (db : DB)
    (name : String) (hauth : sess.user_id.isSome = true)
    (hname : req.name = some name) (h0 : name ≠ "")
    (hdup : db.members.any (fun m => m.name == name) = false) :
    add_member sess req db =
      (.ok ⟨db.next_member_id, name, req.avatar.getD (default_avatar name)⟩,
        log_action sess "ADD_MEMBER"
          ("Added member: " ++ name ++ " (ID: " ++
            toString db.next_member_id ++ ")")
          { db with
              members := db.members ++
                [⟨db.next_member_id, name, req.avatar.getD (default_avatar name)⟩],
              next_member_id := db.next_member_id + 1 }) := by
  have hN : sess.user_id.isNone = false := by
    cases h : sess.user_id <;> simp_all
  have hF : falsy_str (some name) = false := by
    show (name == "") = false
    exact beq_eq_false_iff_ne.mpr h0
  simp [add_member, require_auth, hN, hF, hname, hdup]

theorem add_member_duplicate (sess : Session) (req : AddMemberReq) (db : DB)
    (name : String) (hauth : sess.user_id.isSome = true)
    (hname : req.name = some name) (h0 : name ≠ "")
    (hdup : db.members.any (fun m => m.name == name) = true) :
    add_member sess req db = (.err 400 "Member already exists" none, db) := by
  have hN : sess.user_id.isNone = false := by
    cases h : sess.user_id <;> simp_all
  have hF : falsy_str (some name) = false := by
    show (name == "") = false
    exact beq_eq_false_iff_ne.mpr h0
  simp [add_member, require_auth, hN, hF, hname, hdup]

theorem delete_member_success (sess : Session) (mid : Int) (db : DB)
    (m : Member) (hauth : sess.user_id.isSome = true)
    (hfind : db.members.find? (fun x => x.id == mid) = some m) :
    delete_member sess mid db =
      (.ok ("Member " ++ m.name ++ " deleted"),
        log_action sess "DELETE_MEMBER"
          ("Deleted member: " ++ m.name ++ " (ID: " ++ toString mid ++ ")")
          { db with
              weekly_leaderboard :=
                db.weekly_leaderboard.filter (fun r => !(r.member_id == mid)),
              monthly_leaderboard :=
                db.monthly_leaderboard.filter (fun r => !(r.member_id == mid)),
              members := db.members.filter (fun x => !(x.id == mid)) }) := by
  have hN : sess.user_id.isNone = false := by
    cases h : sess.user_id <;> simp_all
  simp [delete_member, require_auth, hN, hfind]

theorem delete_member_404 (sess : Session) (mid : Int) (db : DB)
    (hauth : sess.user_id.isSome = true)
    (hfind : db.members.find? (fun x => x.id == mid) = none) :
    delete_member sess mid db = (.err 404 "Member not found" none, db) := by
  have hN : sess.user_id.isNone = false := by
    cases h : sess.user_id <;> simp_all
  simp [delete_member, require_auth, hN, hfind]

-- ======== claims ========

/-- C1: for all non-negative integers `s`, `a`, `b`, the scoring function
`calculate_points` returns exactly `s*10 + a*20 + b` (it is a total Lean
function, so there are no error cases) and is monotonically non-decreasing
in each of its three arguments. -/
theorem C1_score_formula_monotone (s a b s1 a1 b1 : Int)
    (hs : 0 ≤ s) (ha : 0 ≤ a) (hb : 0 ≤ b) :
    calculate_points s a b = s * 10 + a * 20 + b ∧
    (s ≤ s1 → calculate_points s a b ≤ calculate_points s1 a b) ∧
    (a ≤ a1 → calculate_points s a b ≤ calculate_points s a1 b) ∧
    (b ≤ b1 → calculate_points s a b ≤ calculate_points s a b1) := by
  unfold calculate_points
  refine ⟨rfl, ?_, ?_, ?_⟩ <;> intro h <;> omega

/-- Witness for C1 at `(s, a, b) = (3, 1, 5)`. -/
theorem C1_score_formula_monotone_witness :
    (0 : Int) ≤ 3 ∧ (0 : Int) ≤ 1 ∧ (0 : Int) ≤ 5 ∧
    (calculate_points 3 1 5 = 3 * 10 + 1 * 20 + 5 ∧
     ((3 : Int) ≤ 4 → calculate_points 3 1 5 ≤ calculate_points 4 1 5) ∧
     ((1 : Int) ≤ 2 → calculate_points 3 1 5 ≤ calculate_points 3 2 5) ∧
     ((5 : Int) ≤ 6 → calculate_points 3 1 5 ≤ calculate_points 3 1 6)) :=
  ⟨by decide, by decide, by decide,
    C1_score_formula_monotone 3 1 5 4 2 6 (by decide) (by decide) (by decide)⟩

/-- C4: any operation wrapped by `require_auth`, invoked with a session
lacking `user_id`, yields the 401 envelope with stable code
`AUTH_REQUIRED`; the wrapped handler is never invoked (the result is the
same for every `f`) and the store is returned unchanged — and so for each
concrete protected endpoint. -/
theorem C4_auth_required_gate (sess : Session) (db : DB)
    (h : sess.user_id = none) :
    (∀ (α : Type) (f : DB → ApiOut α × DB),
        require_auth sess f db =
          (.err 401 "Authentication required" (some "AUTH_REQUIRED"), db)) ∧
    logout sess db =
      (.err 401 "Authentication required" (some "AUTH_REQUIRED"), sess, db) ∧
    (∀ req : AddMemberReq, add_member sess req db =
      (.err 401 "Authentication required" (some "AUTH_REQUIRED"), db)) ∧
    (∀ mid : Int, delete_member sess mid db =
      (.err 401 "Authentication required" (some "AUTH_REQUIRED"), db)) ∧
    (∀ (ws : String) (req : UpdateStatReq),
      update_weekly_leaderboard sess ws req db =
        (.err 401 "Authentication required" (some "AUTH_REQUIRED"), db)) ∧
    (∀ (my : String) (req : UpdateStatReq),
      update_monthly_leaderboard sess my req db =
        (.err 401 "Authentication required" (some "AUTH_REQUIRED"), db)) ∧
    (∀ (ws : String) (mid : Int), delete_weekly_entry sess ws mid db =
      (.err 401 "Authentication required" (some "AUTH_REQUIRED"), db)) ∧
    (∀ (my : String) (mid : Int), delete_monthly_entry sess my mid db =
      (.err 401 "Authentication required" (some "AUTH_REQUIRED"), db)) := by
  have hn : sess.user_id.isNone = true := by rw [h]; rfl
  refine ⟨?_, ?_, ?_, ?_, ?_, ?_, ?_, ?_⟩ <;>
    (intros
     simp [require_auth, logout, add_member, delete_member,
       update_weekly_leaderboard, update_monthly_leaderboard,
       delete_weekly_entry, delete_monthly_entry, hn])

/-- Witness for C4: an unauthenticated `add_member` call on `db1`. -/
theorem C4_auth_required_gate_witness :
    (⟨none, none, none⟩ : Session).user_id = none ∧
    add_member ⟨none, none, none⟩ ⟨some "Carol", none⟩ db1 =
      (.err 401 "Authentication required" (some "AUTH_REQUIRED"), db1) :=
  ⟨rfl, (C4_auth_required_gate ⟨none, none, none⟩ db1 rfl).2.2.1
    ⟨some "Carol", none⟩⟩

/-- C2: on any store whose member ids are distinct (primary key) and whose
stat tables satisfy the schema's uniqueness constraint, the weekly and the
monthly leaderboard contain every member exactly once; a member without a
stat row for the period appears with three zero stat fields and score 0;
every entry's `totalPoints` is computed from its own stat fields; and the
sequence is sorted in descending order of score. -/
theorem C2_leaderboard_complete_sorted (db : DB) (ws my : String)
    (hids : (db.members.map (fun m => m.id)).Nodup)
    (hw : key_unique db.weekly_leaderboard = true)
    (hmo : key_unique db.monthly_leaderboard = true) :
    (∀ m ∈ db.members,
        (get_weekly_leaderboard db ws).countP (fun e => e.id == m.id) = 1) ∧
    (∀ m ∈ db.members, find_stat db.weekly_leaderboard m.id ws = none →
        (⟨m.id, m.name, m.avatar, 0, 0, 0, 0⟩ : LeaderboardEntry) ∈
          get_weekly_leaderboard db ws) ∧
    (∀ e ∈ get_weekly_leaderboard db ws,
        e.totalPoints = calculate_points e.sessionsAttended
          e.assessmentsSubmitted e.bonusPoints) ∧
    (get_weekly_leaderboard db ws).Pairwise
      (fun e1 e2 => e2.totalPoints ≤ e1.totalPoints) ∧
    (∀ m ∈ db.members,
        (get_monthly_leaderboard db my).countP (fun e => e.id == m.id) = 1) ∧
    (∀ m ∈ db.members, find_stat db.monthly_leaderboard m.id my = none →
        (⟨m.id, m.name, m.avatar, 0, 0, 0, 0⟩ : LeaderboardEntry) ∈
          get_monthly_leaderboard db my) ∧
    (∀ e ∈ get_monthly_leaderboard db my,
        e.totalPoints = calculate_points e.sessionsAttended
          e.assessmentsSubmitted e.bonusPoints) ∧
    (get_monthly_leaderboard db my).Pairwise
      (fun e1 e2 => e2.totalPoints ≤ e1.totalPoints) := by
  refine ⟨fun m hm => lb_countP_eq_one db.members _ ws m hids hm,
    fun m hm hnone => ?_, fun e he => ?_, sort_by_points_desc_pairwise _,
    fun m hm => lb_countP_eq_one db.members _ my m hids hm,
    fun m hm hnone => ?_, fun e he => ?_, sort_by_points_desc_pairwise _⟩
  · have := lb_mem_entry db.members db.weekly_leaderboard ws m hm
    rwa [leaderboard_entry_of_none _ _ _ hnone] at this
  · rcases lb_mem_inv db.members db.weekly_leaderboard ws e he with ⟨m, _, rfl⟩
    exact leaderboard_entry_totalPoints _ _ _
  · have := lb_mem_entry db.members db.monthly_leaderboard my m hm
    rwa [leaderboard_entry_of_none _ _ _ hnone] at this
  · rcases lb_mem_inv db.members db.monthly_leaderboard my e he with ⟨m, _, rfl⟩
    exact leaderboard_entry_totalPoints _ _ _

/-- Witness for C2 on `db1`: Bob (no weekly stat row) appears with zeros,
each member appears exactly once, and the listing is score-sorted. -/
theorem C2_leaderboard_complete_sorted_witness :
    (db1.members.map (fun m => m.id)).Nodup ∧
    key_unique db1.weekly_leaderboard = true ∧
    key_unique db1.monthly_leaderboard = true ∧
    (∀ m ∈ db1.members,
      (get_weekly_leaderboard db1 "2025-01-06").countP
        (fun e => e.id == m.id) = 1) ∧
    (⟨2, "Bob", "av2", 0, 0, 0, 0⟩ : LeaderboardEntry) ∈
      get_weekly_leaderboard db1 "2025-01-06" := by
  refine ⟨by decide, by decide, by decide, ?_, ?_⟩
  · exact (C2_leaderboard_complete_sorted db1 "2025-01-06" "2025-01"
      (by decide) (by decide) (by decide)).1
  · exact (C2_leaderboard_complete_sorted db1 "2025-01-06" "2025-01"
      (by decide) (by decide) (by decide)).2.1 ⟨2, "Bob", "av2"⟩
      (by decide) (by decide)

theorem update_weekly_members (sess : Session) (ws : String)
    (req : UpdateStatReq) (db : DB) :
    (update_weekly_leaderboard sess ws req db).2.members = db.members := by
  simp only [update_weekly_leaderboard, require_auth]
  split
  · rfl
  · split
    · rfl
    · split
      · rfl
      · rfl

theorem update_monthly_members (sess : Session) (my : String)
    (req : UpdateStatReq) (db : DB) :
    (update_monthly_leaderboard sess my req db).2.members = db.members := by
  simp only [update_monthly_leaderboard, require_auth]
  split
  · rfl
  · split
    · rfl
    · split
      · rfl
      · rfl

theorem update_weekly_table_success (sess : Session) (ws : String)
    (req : UpdateStatReq) (db : DB) (mid : Int) (m : Member)
    (hauth : sess.user_id.isSome = true) (hmid : req.member_id = some mid)
    (h0 : mid ≠ 0)
    (hfind : db.members.find? (fun x => x.id == mid) = some m) :
    (update_weekly_leaderboard sess ws req db).2.weekly_leaderboard =
      upsert_stat db.weekly_leaderboard mid req.sessions_attended
        req.assessments_submitted req.bonus_points ws := by
  rw [update_weekly_success sess ws req db mid m hauth hmid h0 hfind]
  rfl

theorem update_monthly_table_success (sess : Session) (my : String)
    (req : UpdateStatReq) (db : DB) (mid : Int) (m : Member)
    (hauth : sess.user_id.isSome = true) (hmid : req.member_id = some mid)
    (h0 : mid ≠ 0)
    (hfind : db.members.find? (fun x => x.id == mid) = some m) :
    (update_monthly_leaderboard sess my req db).2.monthly_leaderboard =
      upsert_stat db.monthly_leaderboard mid req.sessions_attended
        req.assessments_submitted req.bonus_points my := by
  rw [update_monthly_success sess my req db mid m hauth hmid h0 hfind]
  rfl

/-- C3: performing the weekly (resp. monthly) stat upsert twice for the
same (member, period) key leaves exactly one stat row for that key, and
that row carries the values of the second call — a full replacement of
the three numeric fields, never a duplicate row and never an incremental
update.  The store is assumed to satisfy the schema's uniqueness
constraint. -/
theorem C3_upsert_twice_single_row (sess : Session) (ws my : String)
    (mid s1 a1 b1 s2 a2 b2 : Int) (db : DB)
    (hauth : sess.user_id.isSome = true) (h0 : mid ≠ 0)
    (hfind : (db.members.find? (fun x => x.id == mid)).isSome = true)
    (hkw : key_unique db.weekly_leaderboard = true)
    (hkm : key_unique db.monthly_leaderboard = true) :
    List.filter (key_match mid ws)
      (update_weekly_leaderboard sess ws ⟨some mid, s2, a2, b2⟩
        (update_weekly_leaderboard sess ws ⟨some mid, s1, a1, b1⟩
          db).2).2.weekly_leaderboard = [⟨mid, s2, a2, b2, ws⟩] ∧
    List.filter (key_match mid my)
      (update_monthly_leaderboard sess my ⟨some mid, s2, a2, b2⟩
        (update_monthly_leaderboard sess my ⟨some mid, s1, a1, b1⟩
          db).2).2.monthly_leaderboard = [⟨mid, s2, a2, b2, my⟩] := by
  obtain ⟨m, hm⟩ := Option.isSome_iff_exists.mp hfind
  constructor
  · have hm1 : ((update_weekly_leaderboard sess ws ⟨some mid, s1, a1, b1⟩
        db).2).members.find? (fun x => x.id == mid) = some m := by
      rw [update_weekly_members]
      exact hm
    rw [update_weekly_table_success sess ws ⟨some mid, s2, a2, b2⟩ _ mid m
      hauth rfl h0 hm1]
    rw [update_weekly_table_success sess ws ⟨some mid, s1, a1, b1⟩ db mid m
      hauth rfl h0 hm]
    exact upsert_stat_filter _ mid s2 a2 b2 ws
      (key_unique_upsert _ mid s1 a1 b1 ws hkw)
  · have hm1 : ((update_monthly_leaderboard sess my ⟨some mid, s1, a1, b1⟩
        db).2).members.find? (fun x => x.id == mid) = some m := by
      rw [update_monthly_members]
      exact hm
    rw [update_monthly_table_success sess my ⟨some mid, s2, a2, b2⟩ _ mid m
      hauth rfl h0 hm1]
    rw [update_monthly_table_success sess my ⟨some mid, s1, a1, b1⟩ db mid m
      hauth rfl h0 hm]
    exact upsert_stat_filter _ mid s2 a2 b2 my
      (key_unique_upsert _ mid s1 a1 b1 my hkm)

/-- Witness for C3: upserting Alice's weekly row twice on `db1`. -/
theorem C3_upsert_twice_single_row_witness :
    sess1.user_id.isSome = true ∧ (1 : Int) ≠ 0 ∧
    (db1.members.find? (fun x => x.id == 1)).isSome = true ∧
    key_unique db1.weekly_leaderboard = true ∧
    key_unique db1.monthly_leaderboard = true ∧
    List.filter (key_match 1 "2025-01-06")
      (update_weekly_leaderboard sess1 "2025-01-06" ⟨some 1, 9, 9, 9⟩
        (update_weekly_leaderboard sess1 "2025-01-06" ⟨some 1, 4, 4, 4⟩
          db1).2).2.weekly_leaderboard = [⟨1, 9, 9, 9, "2025-01-06"⟩] := by
  refine ⟨by decide, by decide, by decide, by decide, by decide, ?_⟩
  exact (C3_upsert_twice_single_row sess1 "2025-01-06" "2025-01"
    1 4 4 4 9 9 9 db1 (by decide) (by decide) (by decide) (by decide)
    (by decide)).1

/-- C5: `delete_member` answers 404 `Member not found` when no member has
the given id (store unchanged); on success it removes every weekly stat
row, every monthly stat row and the member row in the one returned store,
and subsequent leaderboard queries omit the member entirely.  A member
with no stat rows is an instance of the success case (see the witness). -/
theorem C5_delete_member_cascades (sess : Session) (mid : Int) (db : DB)
    (hauth : sess.user_id.isSome = true) :
    (db.members.find? (fun x => x.id == mid) = none →
        delete_member sess mid db = (.err 404 "Member not found" none, db)) ∧
    (∀ m, db.members.find? (fun x => x.id == mid) = some m →
        (delete_member sess mid db).1 = .ok ("Member " ++ m.name ++ " deleted") ∧
        (∀ x ∈ (delete_member sess mid db).2.members, x.id ≠ mid) ∧
        (∀ r ∈ (delete_member sess mid db).2.weekly_leaderboard,
          r.member_id ≠ mid) ∧
        (∀ r ∈ (delete_member sess mid db).2.monthly_leaderboard,
          r.member_id ≠ mid) ∧
        (∀ ws, ∀ e ∈ get_weekly_leaderboard (delete_member sess mid db).2 ws,
          e.id ≠ mid) ∧
        (∀ my, ∀ e ∈ get_monthly_leaderboard (delete_member sess mid db).2 my,
          e.id ≠ mid)) := by
  refine ⟨fun hnone => delete_member_404 sess mid db hauth hnone,
    fun m hfind => ?_⟩
  rw [delete_member_success sess mid db m hauth hfind]
  have hmem : ∀ x ∈ db.members.filter (fun x => !(x.id == mid)),
      x.id ≠ mid := by
    intro x hx
    have := List.of_mem_filter hx
    simpa using this
  refine ⟨rfl, hmem, ?_, ?_, ?_, ?_⟩
  · intro r hr
    have := List.of_mem_filter hr
    simpa using this
  · intro r hr
    have := List.of_mem_filter hr
    simpa using this
  · intro ws e he
    rcases lb_mem_inv _ _ ws e he with ⟨m2, hm2, rfl⟩
    rw [leaderboard_entry_id]
    exact hmem m2 hm2
  · intro my e he
    rcases lb_mem_inv _ _ my e he with ⟨m2, hm2, rfl⟩
    rw [leaderboard_entry_id]
    exact hmem m2 hm2

/-- Witness for C5: deleting Bob, who has no stat rows, from `db1`. -/
theorem C5_delete_member_cascades_witness :
    sess1.user_id.isSome = true ∧
    db1.members.find? (fun x => x.id == 2) = some ⟨2, "Bob", "av2"⟩ ∧
    (∀ r ∈ db1.weekly_leaderboard, r.member_id ≠ 2) ∧
    (∀ r ∈ db1.monthly_leaderboard, r.member_id ≠ 2) ∧
    (delete_member sess1 2 db1).1 = .ok ("Member " ++ "Bob" ++ " deleted") := by
  refine ⟨by decide, by decide, by decide, by decide, ?_⟩
  exact ((C5_delete_member_cascades sess1 2 db1 (by decide)).2
    ⟨2, "Bob", "av2"⟩ (by decide)).1

/-- C6 counterexample: a supplied empty-string password — a wrong
password, since no stored digest equals `digest0 ""` — is rejected by
the handler's `if not username or not password` truthiness test with 400
`Username and password required`, not the claimed 401
`Invalid credentials`. -/
theorem C6_empty_password_counterexample :
    (⟨some "admin", some ""⟩ : LoginReq).password = some "" ∧
    (∀ a ∈ (init_db digest0).admin_users,
      ¬(a.username = "admin" ∧ a.password_hash = digest0 "")) ∧
    login digest0 ⟨some "admin", some ""⟩ ⟨none, none, none⟩
        (init_db digest0) =
      (.err 400 "Username and password required" none, ⟨none, none, none⟩,
        init_db digest0) ∧
    (.err 400 "Username and password required" none :
        ApiOut (String × String)) ≠ .err 401 "Invalid credentials" none := by
  refine ⟨rfl, by decide, by decide, by decide⟩

/-- C6 (amended): a login call whose username or password is Python-falsy
(absent or the empty string) fails with 400
`Username and password required`, with no session created and the store
unchanged.  With both credentials supplied and non-empty, a digest match
creates a session carrying `{user_id, username, role}` and appends a
LOGIN audit entry; when no admin row matches the (username, digest) pair
— wrong password and unknown username alike — the one undifferentiated
401 `Invalid credentials` envelope is returned, the session is unchanged
(no session created) and the store is unchanged. -/
theorem C6_login_paths (hash_password : String → String)
    (req : LoginReq) (sess : Session) (db : DB) :
    ((falsy_str req.username || falsy_str req.password) = true →
      login hash_password req sess db =
        (.err 400 "Username and password required" none, sess, db)) ∧
    (∀ u p, req.username = some u → req.password = some p →
      u ≠ "" → p ≠ "" →
      (∀ user, db.admin_users.find?
          (fun a => a.username == u && a.password_hash == hash_password p) =
            some user →
        login hash_password req sess db =
          (.ok (user.username, user.role),
           ⟨some user.id, some user.username, some user.role⟩,
           { db with audit_log := db.audit_log ++
              [⟨user.username, "LOGIN", "User " ++ u ++ " logged in"⟩] })) ∧
      (db.admin_users.find?
          (fun a => a.username == u && a.password_hash == hash_password p) =
            none →
        login hash_password req sess db =
          (.err 401 "Invalid credentials" none, sess, db))) := by
  constructor
  · intro hfalsy
    simp [login, hfalsy]
  · intro u p hu hp hu0 hp0
    have hFu : falsy_str (some u) = false := by
      show (u == "") = false
      exact beq_eq_false_iff_ne.mpr hu0
    have hFp : falsy_str (some p) = false := by
      show (p == "") = false
      exact beq_eq_false_iff_ne.mpr hp0
    constructor
    · intro user hfind
      simp [login, hu, hp, hFu, hFp, hfind, log_action]
    · intro hfind
      simp [login, hu, hp, hFu, hFp, hfind]

/-- Witness for C6 (amended): on the fresh store under `digest0`, the
bootstrap admin logs in with the correct password, and a supplied wrong
password "wrong" gets the 401 `Invalid credentials` envelope with
session and store unchanged. -/
theorem C6_login_paths_witness :
    ("admin" : String) ≠ "" ∧ ("synapse2024" : String) ≠ "" ∧
    ("wrong" : String) ≠ "" ∧
    login digest0 ⟨some "admin", some "synapse2024"⟩ ⟨none, none, none⟩
        (init_db digest0) =
      (.ok ("admin", "admin"), ⟨some 1, some "admin", some "admin"⟩,
        { init_db digest0 with audit_log :=
            [⟨"admin", "LOGIN", "User " ++ "admin" ++ " logged in"⟩] }) ∧
    login digest0 ⟨some "admin", some "wrong"⟩ ⟨none, none, none⟩
        (init_db digest0) =
      (.err 401 "Invalid credentials" none, ⟨none, none, none⟩,
        init_db digest0) := by
  refine ⟨by decide, by decide, by decide, ?_, ?_⟩
  · have h := ((C6_login_paths digest0 ⟨some "admin", some "synapse2024"⟩
      ⟨none, none, none⟩ (init_db digest0)).2 "admin" "synapse2024" rfl rfl
      (by decide) (by decide)).1
      ⟨1, "admin", digest0 "synapse2024", "admin"⟩ (by decide)
    simpa using h
  · exact ((C6_login_paths digest0 ⟨some "admin", some "wrong"⟩
      ⟨none, none, none⟩ (init_db digest0)).2 "admin" "wrong" rfl rfl
      (by decide) (by decide)).2 (by decide)

/-- C7 counterexample: `member_id = 0` is supplied in the call (not
absent) and resolves to no member, yet the handler answers 400
`member_id is required` — not 404 — because Python's `if not member_id`
is also true for `0`. -/
theorem C7_member_id_zero_counterexample :
    (⟨some 0, 1, 2, 3⟩ : UpdateStatReq).member_id ≠ none ∧
    (∀ m ∈ db1.members, m.id ≠ 0) ∧
    (update_weekly_leaderboard sess1 "2025-01-06" ⟨some 0, 1, 2, 3⟩ db1).1 =
      .err 400 "member_id is required" none ∧
    (update_monthly_leaderboard sess1 "2025-01" ⟨some 0, 1, 2, 3⟩ db1).1 =
      .err 400 "member_id is required" none := by
  refine ⟨by decide, by decide, by decide, by decide⟩

/-- C7 (amended): the weekly (resp. monthly) stat upsert fails with 400
exactly when `member_id` is falsy — absent from the call or equal to 0 —
fails with 404 `Member not found` when a supplied nonzero `member_id`
resolves to no member, and otherwise inserts or replaces the unique
(member_id, period) row with the given field values. -/
theorem C7_upsert_error_paths (sess : Session) (ws my : String)
    (req : UpdateStatReq) (db : DB) (hauth : sess.user_id.isSome = true) :
    ((update_weekly_leaderboard sess ws req db).1 =
        .err 400 "member_id is required" none ↔
      falsy_int req.member_id = true) ∧
    (∀ mid, req.member_id = some mid → mid ≠ 0 →
      ((update_weekly_leaderboard sess ws req db).1 =
          .err 404 "Member not found" none ↔
        db.members.find? (fun x => x.id == mid) = none)) ∧
    (∀ mid m, req.member_id = some mid → mid ≠ 0 →
      db.members.find? (fun x => x.id == mid) = some m →
      update_weekly_leaderboard sess ws req db =
        (.ok "Weekly leaderboard updated",
          log_action sess "UPDATE_WEEKLY"
            ("Updated weekly stats for " ++ m.name)
            (with_weekly db (upsert_stat db.weekly_leaderboard mid
              req.sessions_attended req.assessments_submitted
              req.bonus_points ws)))) ∧
    ((update_monthly_leaderboard sess my req db).1 =
        .err 400 "member_id is required" none ↔
      falsy_int req.member_id = true) ∧
    (∀ mid, req.member_id = some mid → mid ≠ 0 →
      ((update_monthly_leaderboard sess my req db).1 =
          .err 404 "Member not found" none ↔
        db.members.find? (fun x => x.id == mid) = none)) ∧
    (∀ mid m, req.member_id = some mid → mid ≠ 0 →
      db.members.find? (fun x => x.id == mid) = some m →
      update_monthly_leaderboard sess my req db =
        (.ok "Monthly leaderboard updated",
          log_action sess "UPDATE_MONTHLY"
            ("Updated monthly stats for " ++ m.name)
            (with_monthly db (upsert_stat db.monthly_leaderboard mid
              req.sessions_attended req.assessments_submitted
              req.bonus_points my)))) := by
  refine ⟨?_, ?_, ?_, ?_, ?_, ?_⟩
  · by_cases hf : falsy_int req.member_id = true
    · rw [update_weekly_400 sess ws req db hauth hf]
      simp [hf]
    · have hf2 : falsy_int req.member_id = false := eq_false_of_ne_true hf
      rcases hre : req.member_id with _ | mid
      · rw [hre] at hf2
        simp [falsy_int] at hf2
      · have h0 : mid ≠ 0 := by
          intro h
          rw [hre, h] at hf2
          simp [falsy_int] at hf2
        have hF : falsy_int (some mid) = false := by
          show (mid == 0) = false
          exact beq_eq_false_iff_ne.mpr h0
        cases hfind : db.members.find? (fun x => x.id == mid) with
        | none =>
            rw [update_weekly_404 sess ws req db mid hauth hre h0 hfind]
            simp [hre, hF]
        | some m =>
            rw [update_weekly_success sess ws req db mid m hauth hre h0 hfind]
            simp [hre, hF]
  · intro mid hre h0
    cases hfind : db.members.find? (fun x => x.id == mid) with
    | none =>
        rw [update_weekly_404 sess ws req db mid hauth hre h0 hfind]
        simp
    | some m =>
        rw [update_weekly_success sess ws req db mid m hauth hre h0 hfind]
        simp
  · intro mid m hre h0 hfind
    exact update_weekly_success sess ws req db mid m hauth hre h0 hfind
  · by_cases hf : falsy_int req.member_id = true
    · rw [update_monthly_400 sess my req db hauth hf]
      simp [hf]
    · have hf2 : falsy_int req.member_id = false := eq_false_of_ne_true hf
      rcases hre : req.member_id with _ | mid
      · rw [hre] at hf2
        simp [falsy_int] at hf2
      · have h0 : mid ≠ 0 := by
          intro h
          rw [hre, h] at hf2
          simp [falsy_int] at hf2
        have hF : falsy_int (some mid) = false := by
          show (mid == 0) = false
          exact beq_eq_false_iff_ne.mpr h0
        cases hfind : db.members.find? (fun x => x.id == mid) with
        | none =>
            rw [update_monthly_404 sess my req db mid hauth hre h0 hfind]
            simp [hre, hF]
        | some m =>
            rw [update_monthly_success sess my req db mid m hauth hre h0 hfind]
            simp [hre, hF]
  · intro mid hre h0
    cases hfind : db.members.find? (fun x => x.id == mid) with
    | none =>
        rw [update_monthly_404 sess my req db mid hauth hre h0 hfind]
        simp
    | some m =>
        rw [update_monthly_success sess my req db mid m hauth hre h0 hfind]
        simp
  · intro mid m hre h0 hfind
    exact update_monthly_success sess my req db mid m hauth hre h0 hfind

/-- Witness for C7 (amended): an absent `member_id` yields 400 on `db1`. -/
theorem C7_upsert_error_paths_witness :
    sess1.user_id.isSome = true ∧
    falsy_int (⟨none, 1, 1, 1⟩ : UpdateStatReq).member_id = true ∧
    (update_weekly_leaderboard sess1 "2025-01-06" ⟨none, 1, 1, 1⟩ db1).1 =
      .err 400 "member_id is required" none := by
  refine ⟨by decide, by decide, ?_⟩
  exact (C7_upsert_error_paths sess1 "2025-01-06" "2025-01" ⟨none, 1, 1, 1⟩
    db1 (by decide)).1.mpr (by decide)

/-- C8 counterexample: a store reachable through the API (login, add
member, weekly upsert with `bonus_points = -5` — the handlers never
validate non-negativity) whose weekly leaderboard carries the negative
score `-5`. -/
theorem C8_negative_score_counterexample :
    Reachable digest0 bad_db ∧
    (get_weekly_leaderboard bad_db "2025-01-06").map
      (fun e => e.totalPoints) = [-5] ∧
    (-5 : Int) < 0 := by
  refine ⟨?_, by decide, by decide⟩
  have h0 : Reachable digest0 (init_db digest0) := Reachable.init
  have h1 : Reachable digest0 login0.2.2 :=
    h0.step (Step.login_step ⟨some "admin", some "synapse2024"⟩
      ⟨none, none, none⟩ (init_db digest0))
  have h2 : Reachable digest0
      (add_member sess_admin ⟨some "A", none⟩ login0.2.2).2 :=
    h1.step (Step.add_member_step sess_admin ⟨some "A", none⟩ login0.2.2)
  exact h2.step (Step.update_weekly_step sess_admin "2025-01-06"
    ⟨some 1, 0, 0, -5⟩ _)

/-- C8 (amended): in every store state the leaderboard score is the
deterministic function `calculate_points` of the entry's three stat
fields, a member with no stat row for the period gets the all-zero entry
(absent stats contribute zero, not null), and the score is non-negative
whenever the stored stat fields are non-negative — which the handlers do
not enforce. -/
theorem C8_score_function_of_fields (db : DB) (ws my : String) :
    (∀ e ∈ get_weekly_leaderboard db ws,
        e.totalPoints = calculate_points e.sessionsAttended
          e.assessmentsSubmitted e.bonusPoints) ∧
    (∀ m ∈ db.members, find_stat db.weekly_leaderboard m.id ws = none →
        leaderboard_entry db.weekly_leaderboard ws m =
          ⟨m.id, m.name, m.avatar, 0, 0, 0, 0⟩) ∧
    ((∀ r ∈ db.weekly_leaderboard, 0 ≤ r.sessions_attended ∧
        0 ≤ r.assessments_submitted ∧ 0 ≤ r.bonus_points) →
      ∀ e ∈ get_weekly_leaderboard db ws, 0 ≤ e.totalPoints) ∧
    (∀ e ∈ get_monthly_leaderboard db my,
        e.totalPoints = calculate_points e.sessionsAttended
          e.assessmentsSubmitted e.bonusPoints) ∧
    (∀ m ∈ db.members, find_stat db.monthly_leaderboard m.id my = none →
        leaderboard_entry db.monthly_leaderboard my m =
          ⟨m.id, m.name, m.avatar, 0, 0, 0, 0⟩) ∧
    ((∀ r ∈ db.monthly_leaderboard, 0 ≤ r.sessions_attended ∧
        0 ≤ r.assessments_submitted ∧ 0 ≤ r.bonus_points) →
      ∀ e ∈ get_monthly_leaderboard db my, 0 ≤ e.totalPoints) := by
  refine ⟨fun e he => ?_, fun m _ hnone => leaderboard_entry_of_none _ _ _ hnone,
    lb_nonneg db.members db.weekly_leaderboard ws,
    fun e he => ?_, fun m _ hnone => leaderboard_entry_of_none _ _ _ hnone,
    lb_nonneg db.members db.monthly_leaderboard my⟩
  · rcases lb_mem_inv db.members db.weekly_leaderboard ws e he with ⟨m, _, rfl⟩
    exact leaderboard_entry_totalPoints _ _ _
  · rcases lb_mem_inv db.members db.monthly_leaderboard my e he with ⟨m, _, rfl⟩
    exact leaderboard_entry_totalPoints _ _ _

/-- Witness for C8 (amended): on `db1` all stored stat fields are
non-negative, so every weekly leaderboard score is non-negative. -/
theorem C8_score_function_of_fields_witness :
    (∀ r ∈ db1.weekly_leaderboard, 0 ≤ r.sessions_attended ∧
      0 ≤ r.assessments_submitted ∧ 0 ≤ r.bonus_points) ∧
    (∀ e ∈ get_weekly_leaderboard db1 "2025-01-06", 0 ≤ e.totalPoints) := by
  refine ⟨by decide, ?_⟩
  exact (C8_score_function_of_fields db1 "2025-01-06" "2025-01").2.2.1
    (by decide)

/-- C9 counterexample: for the name `A&B` the code's default avatar URL
embeds the `&` verbatim (only spaces are replaced by `+`), whereas the
URL-encoded form the claim describes would be `A%26B`. -/
theorem C9_no_url_encoding_counterexample :
    (add_member sess1 ⟨some "A&B", none⟩ db1).1 =
      .ok ⟨3, "A&B",
        "https://ui-avatars.com/api/?name=A&B&background=ff642c&color=fff&size=200"⟩ ∧
    url_encoded_default_avatar "A&B" =
      "https://ui-avatars.com/api/?name=A%26B&background=ff642c&color=fff&size=200" ∧
    default_avatar "A&B" ≠ url_encoded_default_avatar "A&B" := by
  refine ⟨by decide, by decide, by decide⟩

/-- C9 (amended): when `avatar` is omitted, `add_member` returns the
member with the deterministic default URL that embeds the name with
spaces replaced by `+` (no other URL-encoding) and the fixed
background/color/size query parameters; adding "Alice" yields the URL
containing "Alice". -/
theorem C9_default_avatar_derivation (sess : Session) (req : AddMemberReq)
    (db : DB) (name : String) (hauth : sess.user_id.isSome = true)
    (hname : req.name = some name) (h0 : name ≠ "")
    (hav : req.avatar = none)
    (hdup : db.members.any (fun m => m.name == name) = false) :
    (add_member sess req db).1 =
      .ok ⟨db.next_member_id, name, default_avatar name⟩ ∧
    default_avatar "Alice" =
      "https://ui-avatars.com/api/?name=Alice&background=ff642c&color=fff&size=200" ∧
    plus_for_space "Ann Lee" = "Ann+Lee" := by
  refine ⟨?_, by decide, by decide⟩
  rw [add_member_success sess req db name hauth hname h0 hdup]
  simp [hav]

/-- Witness for C9 (amended): adding "Carla" with no avatar on `db1`. -/
theorem C9_default_avatar_derivation_witness :
    sess1.user_id.isSome = true ∧
    (⟨some "Carla", none⟩ : AddMemberReq).name = some "Carla" ∧
    ("Carla" : String) ≠ "" ∧
    (⟨some "Carla", none⟩ : AddMemberReq).avatar = none ∧
    db1.members.any (fun m => m.name == "Carla") = false ∧
    (add_member sess1 ⟨some "Carla", none⟩ db1).1 =
      .ok ⟨3, "Carla", default_avatar "Carla"⟩ := by
  refine ⟨by decide, rfl, by decide, rfl, by decide, ?_⟩
  exact (C9_default_avatar_derivation sess1 ⟨some "Carla", none⟩ db1 "Carla"
    (by decide) rfl (by decide) rfl (by decide)).1

/-- C10: adding a member whose name already exists answers 400
`Member already exists` with the store — members table and audit log —
completely unchanged; on the success path the member row is inserted and
exactly one ADD_MEMBER audit entry is appended. -/
theorem C10_duplicate_member_no_mutation (sess : Session)
    (req : AddMemberReq) (db : DB) (name : String)
    (hauth : sess.user_id.isSome = true) (hname : req.name = some name)
    (h0 : name ≠ "") :
    (db.members.any (fun m => m.name == name) = true →
        add_member sess req db = (.err 400 "Member already exists" none, db)) ∧
    (db.members.any (fun m => m.name == name) = false →
        (add_member sess req db).2.members = db.members ++
          [⟨db.next_member_id, name, req.avatar.getD (default_avatar name)⟩] ∧
        (add_member sess req db).2.audit_log = db.audit_log ++
          [⟨sess.username.getD "system", "ADD_MEMBER",
            "Added member: " ++ name ++ " (ID: " ++
              toString db.next_member_id ++ ")"⟩]) := by
  refine ⟨fun hdup => add_member_duplicate sess req db name hauth hname h0 hdup,
    fun hdup => ?_⟩
  rw [add_member_success sess req db name hauth hname h0 hdup]
  exact ⟨rfl, rfl⟩

/-- Witness for C10: adding "Alice" again on `db1`. -/
theorem C10_duplicate_member_no_mutation_witness :
    sess1.user_id.isSome = true ∧
    (⟨some "Alice", none⟩ : AddMemberReq).name = some "Alice" ∧
    ("Alice" : String) ≠ "" ∧
    db1.members.any (fun m => m.name == "Alice") = true ∧
    add_member sess1 ⟨some "Alice", none⟩ db1 =
      (.err 400 "Member already exists" none, db1) := by
  refine ⟨by decide, rfl, by decide, by decide, ?_⟩
  exact (C10_duplicate_member_no_mutation sess1 ⟨some "Alice", none⟩ db1
    "Alice" (by decide) rfl (by decide)).1 (by decide)
